import Mathlib

/-!
Shallow embedding of the payment-engine repository (src/account.rs,
src/payment_engine.rs).  Monetary amounts (`f32` in the source, holding
four-decimal-digit values and used only with `+`, `-`, `<=`) are embedded
as exact integers (a count of 10^-4 currency units); `u16`/`u32`
identifiers as `Nat`; `BTreeMap` as an association list kept sorted by key
by its insert operation; `anyhow::Result` as `Except`.  Methods taking
`&mut self` and returning `Result<()>` are embedded as functions returning
the (possibly updated) receiver together with the `Except` status, so a
failure that left the receiver untouched is visible as such.
-/

deriving instance DecidableEq for Except

/-- Error kinds of the program, one per distinct `anyhow!` message in the
source (`ParseError` is kept as a raw `String`, as in `csv`/`serde`). -/
inductive AccountError
  | InsufficientFunds
  | UnknownTransaction
  | NotDisputed
  | AccountLocked
  | UnrecognizedType (raw : String)
deriving DecidableEq, Repr

/-- `TransactionType` from payment_engine.rs (lines 31-38). -/
inductive TransactionType
  | Deposit
  | Withdrawal
  | Dispute
  | Resolve
  | ChargeBack
  | Unknown (raw : String)
deriving DecidableEq, Repr

/-- `Transaction` from payment_engine.rs (lines 46-52): `r#type`, `client`,
`tx`, `amount`.  The `disputed` flag is the per-stored-transaction flag
read and written by account.rs (`original_tx.disputed`); it defaults to
`false` for freshly parsed records, matching `#[derive(Default)]`. -/
structure Transaction where
  type : TransactionType
  client : Nat
  tx : Nat
  amount : ℤ
  disputed : Bool
deriving DecidableEq, Repr

/-- `BTreeMap::insert`: association list kept sorted by strictly
increasing key; an existing key is overwritten in place. -/
def btreeInsert {α : Type} (k : Nat) (v : α) : List (Nat × α) → List (Nat × α)
  | [] => [(k, v)]
  | (k2, v2) :: rest =>
    if k < k2 then (k, v) :: (k2, v2) :: rest
    else if k = k2 then (k, v) :: rest
    else (k2, v2) :: btreeInsert k v rest

/-- `BTreeMap::get` on the sorted association list. -/
def btreeGet {α : Type} (k : Nat) : List (Nat × α) → Option α
  | [] => none
  | (k2, v2) :: rest => if k = k2 then some v2 else btreeGet k rest

/-- `Account` from account.rs (lines 6-18): balances plus the stored
transaction history keyed by transaction id. -/
structure Account where
  client : Nat
  available : ℤ
  held : ℤ
  total : ℤ
  locked : Bool
  transactions : List (Nat × Transaction)
deriving DecidableEq, Repr

/-- `Account::default()`: all-zero, unlocked, empty history. -/
def newAccount (client : Nat) : Account :=
  { client := client, available := 0, held := 0, total := 0,
    locked := false, transactions := [] }

/-- `Account::deposit` (account.rs lines 21-24). -/
def Account.deposit (self : Account) (amount : ℤ) : Account :=
  { self with available := self.available + amount, total := self.total + amount }

/-- `Account::withdraw` (account.rs lines 26-35): succeeds iff
`amount <= self.total`. -/
def Account.withdraw (self : Account) (amount : ℤ) :
    Account × Except AccountError Unit :=
  if amount ≤ self.total then
    ({ self with available := self.available - amount, total := self.total - amount },
     Except.ok ())
  else
    (self, Except.error AccountError.InsufficientFunds)

/-- `Account::dispute` (account.rs lines 36-48). -/
def Account.dispute (self : Account) (tx_id : Nat) :
    Account × Except AccountError Unit :=
  match btreeGet tx_id self.transactions with
  | some original_tx =>
      ({ self with
          available := self.available - original_tx.amount,
          held := self.held + original_tx.amount,
          transactions :=
            btreeInsert tx_id { original_tx with disputed := true } self.transactions },
       Except.ok ())
  | none => (self, Except.error AccountError.UnknownTransaction)

/-- `Account::resolve` (account.rs lines 49-65). -/
def Account.resolve (self : Account) (tx_id : Nat) :
    Account × Except AccountError Unit :=
  match btreeGet tx_id self.transactions with
  | some original_tx =>
      if original_tx.disputed then
        ({ self with
            available := self.available + original_tx.amount,
            held := self.held - original_tx.amount,
            transactions :=
              btreeInsert tx_id { original_tx with disputed := false } self.transactions },
         Except.ok ())
      else
        (self, Except.error AccountError.NotDisputed)
  | none => (self, Except.error AccountError.UnknownTransaction)

/-- `Account::charge_back` (account.rs lines 66-83).  Note the source
performs `self.total += original_tx.amount` (line 70) — an addition. -/
def Account.charge_back (self : Account) (tx_id : Nat) :
    Account × Except AccountError Unit :=
  match btreeGet tx_id self.transactions with
  | some original_tx =>
      if original_tx.disputed then
        ({ self with
            total := self.total + original_tx.amount,
            held := self.held - original_tx.amount,
            locked := true,
            transactions :=
              btreeInsert tx_id { original_tx with disputed := false } self.transactions },
         Except.ok ())
      else
        (self, Except.error AccountError.NotDisputed)
  | none => (self, Except.error AccountError.UnknownTransaction)

/-- `Account::process_transaction` (account.rs lines 84-108): the locked
check comes first; then dispatch on the transaction type. -/
def Account.process_transaction (self : Account) (transaction : Transaction) :
    Account × Except AccountError Unit :=
  if self.locked then
    (self, Except.error AccountError.AccountLocked)
  else
    match transaction.type with
    | TransactionType.Deposit =>
        let a := self.deposit transaction.amount
        ({ a with transactions := btreeInsert transaction.tx transaction a.transactions },
         Except.ok ())
    | TransactionType.Withdrawal =>
        match self.withdraw transaction.amount with
        | (a, Except.ok _) =>
            ({ a with transactions := btreeInsert transaction.tx transaction a.transactions },
             Except.ok ())
        | (a, Except.error e) => (a, Except.error e)
    | TransactionType.Dispute => self.dispute transaction.tx
    | TransactionType.Resolve => self.resolve transaction.tx
    | TransactionType.ChargeBack => self.charge_back transaction.tx
    | TransactionType.Unknown raw =>
        (self, Except.error (AccountError.UnrecognizedType raw))

namespace PaymentEngine

/-- The engine-side `Account` (payment_engine.rs lines 17-27): no stored
transaction history. -/
structure Account where
  client : Nat
  available : ℤ
  held : ℤ
  total : ℤ
  locked : Bool
deriving DecidableEq, Repr

/-- The fresh account inserted by `accounts.entry(..).or_insert(..)`
(payment_engine.rs lines 92-98). -/
def freshAccount (client : Nat) : Account :=
  { client := client, available := 0, held := 0, total := 0, locked := false }

/-- The part of the engine state built by `process_transactions`. -/
structure EngineState where
  accounts : List (Nat × Account)
  failed_transactions : List Transaction
deriving DecidableEq, Repr

/-- The account yielded by `accounts.entry(tx.client).or_insert(..)`
(payment_engine.rs lines 92-98): the stored one if present, fresh otherwise. -/
def entryAccount (st : EngineState) (client : Nat) : Account :=
  (btreeGet client st.accounts).getD (freshAccount client)

/-- One iteration of the loop in `process_transactions`
(payment_engine.rs lines 91-146): `entry` is the `(tx_id, tx)` pair being
iterated, `txs` is `self.transactions` (the whole parsed map, which the
Dispute/Resolve/ChargeBack arms consult via `self.transactions.get(tx_id)`).
`entry(..).or_insert(..)` materialises the client account before the
dispatch, so the (possibly fresh) account is written back on every arm. -/
def processRecord (txs : List (Nat × Transaction)) (st : EngineState)
    (entry : Nat × Transaction) : EngineState :=
  let tx := entry.2
  let account := entryAccount st tx.client
  match tx.type with
  | TransactionType.Deposit =>
      { st with accounts := (btreeInsert tx.client
          ({ account with
              available := account.available + tx.amount,
              total := account.total + tx.amount }) st.accounts) }
  | TransactionType.Withdrawal =>
      if tx.amount ≤ account.total then
        { st with accounts := (btreeInsert tx.client
            ({ account with
                available := account.available - tx.amount,
                total := account.total - tx.amount }) st.accounts) }
      else
        { accounts := btreeInsert tx.client account st.accounts,
          failed_transactions := st.failed_transactions ++ [tx] }
  | TransactionType.Dispute =>
      match btreeGet entry.1 txs with
      | some original_tx =>
          { st with accounts := (btreeInsert tx.client
              ({ account with
                  available := account.available - original_tx.amount,
                  held := account.held + original_tx.amount }) st.accounts) }
      | none =>
          { accounts := btreeInsert tx.client account st.accounts,
            failed_transactions := st.failed_transactions ++ [tx] }
  | TransactionType.Resolve =>
      match btreeGet entry.1 txs with
      | some original_tx =>
          { st with accounts := (btreeInsert tx.client
              ({ account with
                  available := account.available + original_tx.amount,
                  held := account.held - original_tx.amount }) st.accounts) }
      | none =>
          { accounts := btreeInsert tx.client account st.accounts,
            failed_transactions := st.failed_transactions ++ [tx] }
  | TransactionType.ChargeBack =>
      match btreeGet entry.1 txs with
      | some original_tx =>
          { st with accounts := (btreeInsert tx.client
              ({ account with
                  total := account.total + original_tx.amount,
                  held := account.held - original_tx.amount,
                  locked := true }) st.accounts) }
      | none =>
          { accounts := btreeInsert tx.client account st.accounts,
            failed_transactions := st.failed_transactions ++ [tx] }
  | TransactionType.Unknown _ =>
      { accounts := btreeInsert tx.client account st.accounts,
        failed_transactions := st.failed_transactions ++ [tx] }

/-- The loop body of `parse_transactions` (payment_engine.rs lines 77-80):
each row is a deserialization result; `let record = transaction?;` aborts
on the first parse error, otherwise `transactions.insert(record.tx, record)`. -/
def parseTransactionsAux (acc : List (Nat × Transaction)) :
    List (Except String Transaction) → Except String (List (Nat × Transaction))
  | [] => Except.ok acc
  | Except.error e :: _ => Except.error e
  | Except.ok record :: rest => parseTransactionsAux (btreeInsert record.tx record acc) rest

/-- `parse_transactions` (payment_engine.rs lines 71-83). -/
def parseTransactions (rows : List (Except String Transaction)) :
    Except String (List (Nat × Transaction)) :=
  parseTransactionsAux [] rows

/-- The processing loop of `process_transactions` (payment_engine.rs
lines 88-148) over an already-parsed transaction map. -/
def processParsed (txs : List (Nat × Transaction)) : EngineState :=
  txs.foldl (processRecord txs) { accounts := [], failed_transactions := [] }

/-- `process_transactions` (payment_engine.rs lines 86-157), minus the
file output: parse, then fold the per-record loop over the parsed map. -/
def processTransactionsRun (rows : List (Except String Transaction)) :
    Except String EngineState :=
  match parseTransactions rows with
  | Except.error e => Except.error e
  | Except.ok txs => Except.ok (processParsed txs)

/-- Modelled from the spec: `run(records)` "consumes the input sequence in
encounter order (stable, no reordering)", applying the same per-record
rule to each record in the order the records were encountered.  Used only
to compare against the code's processing order. -/
def encounterOrderRun (records : List (Nat × Transaction)) : EngineState :=
  records.foldl (processRecord records) { accounts := [], failed_transactions := [] }

end PaymentEngine

/-- Keys of the association list are strictly increasing, the invariant
`BTreeMap` iteration guarantees and `btreeInsert` maintains. -/
def SortedKeys {α : Type} (l : List (Nat × α)) : Prop :=
  List.Pairwise (fun p q => p.1 < q.1) l

/-- The spec scenario `deposit(tx=1, amount=5); dispute(tx=1);
chargeback(tx=1)` on a fresh account, run through
`Account::process_transaction`. -/
def chargebackScenario : Account × Except AccountError Unit :=
  ((((newAccount 1).process_transaction
      { type := TransactionType.Deposit, client := 1, tx := 1, amount := 5, disputed := false }).1.process_transaction
      { type := TransactionType.Dispute, client := 1, tx := 1, amount := 0, disputed := false }).1.process_transaction
      { type := TransactionType.ChargeBack, client := 1, tx := 1, amount := 0, disputed := false })

/-! ### Helper lemmas about the `BTreeMap` embedding -/

theorem mem_btreeInsert {α : Type} (p : Nat × α) (k : Nat) (v : α) :
    ∀ l : List (Nat × α), p ∈ btreeInsert k v l → p = (k, v) ∨ p ∈ l := by
  intro l
  induction l with
  | nil =>
      intro h
      simp [btreeInsert] at h
      exact Or.inl h
  | cons hd tl ih =>
      obtain ⟨k2, v2⟩ := hd
      intro h
      by_cases hlt : k < k2
      · simp only [btreeInsert, if_pos hlt] at h
        rcases List.mem_cons.mp h with h | h
        · exact Or.inl h
        · exact Or.inr h
      · by_cases heq : k = k2
        · simp only [btreeInsert, if_neg hlt, if_pos heq] at h
          rcases List.mem_cons.mp h with h | h
          · exact Or.inl h
          · exact Or.inr (List.mem_cons.mpr (Or.inr h))
        · simp only [btreeInsert, if_neg hlt, if_neg heq] at h
          rcases List.mem_cons.mp h with h | h
          · exact Or.inr (List.mem_cons.mpr (Or.inl h))
          · rcases ih h with h | h
            · exact Or.inl h
            · exact Or.inr (List.mem_cons.mpr (Or.inr h))

theorem sortedKeys_btreeInsert {α : Type} (k : Nat) (v : α) :
    ∀ l : List (Nat × α), SortedKeys l → SortedKeys (btreeInsert k v l) := by
  intro l
  induction l with
  | nil =>
      intro _
      simp [btreeInsert, SortedKeys]
  | cons hd tl ih =>
      obtain ⟨k2, v2⟩ := hd
      intro hp
      obtain ⟨h1, h2⟩ := List.pairwise_cons.mp hp
      by_cases hlt : k < k2
      · simp only [SortedKeys, btreeInsert, if_pos hlt]
        refine List.pairwise_cons.mpr ⟨?_, hp⟩
        intro q hq
        rcases List.mem_cons.mp hq with h | h
        · simpa [h] using hlt
        · exact lt_trans hlt (h1 q h)
      · by_cases heq : k = k2
        · simp only [SortedKeys, btreeInsert, if_neg hlt, if_pos heq]
          refine List.pairwise_cons.mpr ⟨?_, h2⟩
          intro q hq
          simpa [heq] using h1 q hq
        · simp only [SortedKeys, btreeInsert, if_neg hlt, if_neg heq]
          refine List.pairwise_cons.mpr ⟨?_, ih h2⟩
          intro q hq
          rcases mem_btreeInsert q k v tl hq with h | h
          · have hk2 : k2 < k := by omega
            simpa [h] using hk2
          · exact h1 q h

theorem btreeGet_of_sorted_mem {α : Type} (k : Nat) (v : α) :
    ∀ l : List (Nat × α), SortedKeys l → (k, v) ∈ l → btreeGet k l = some v := by
  intro l
  induction l with
  | nil => intro _ h; simp at h
  | cons hd tl ih =>
      obtain ⟨k2, v2⟩ := hd
      intro hp hm
      obtain ⟨h1, h2⟩ := List.pairwise_cons.mp hp
      rcases List.mem_cons.mp hm with h | h
      · injection h with hk hv
        subst hk
        subst hv
        simp [btreeGet]
      · have hk : k2 < k := h1 (k, v) h
        have hne : ¬ k = k2 := by omega
        simp only [btreeGet, if_neg hne]
        exact ih h2 h

/-- What a successful parse produces: a map with strictly increasing
transaction-id keys, every entry keyed by its own `tx` field and drawn
from the input rows. -/
theorem parseTransactionsAux_sorted_mem :
    ∀ (rows : List (Except String Transaction)) (acc m : List (Nat × Transaction)),
      PaymentEngine.parseTransactionsAux acc rows = Except.ok m → SortedKeys acc →
      SortedKeys m ∧ ∀ p ∈ m, p ∈ acc ∨ (p.2.tx = p.1 ∧ Except.ok p.2 ∈ rows) := by
  intro rows
  induction rows with
  | nil =>
      intro acc m h hs
      simp only [PaymentEngine.parseTransactionsAux, Except.ok.injEq] at h
      subst h
      exact ⟨hs, fun p hp => Or.inl hp⟩
  | cons r rest ih =>
      intro acc m h hs
      cases r with
      | error e => simp [PaymentEngine.parseTransactionsAux] at h
      | ok record =>
          simp only [PaymentEngine.parseTransactionsAux] at h
          obtain ⟨hm1, hm2⟩ :=
            ih (btreeInsert record.tx record acc) m h
              (sortedKeys_btreeInsert record.tx record acc hs)
          refine ⟨hm1, fun p hp => ?_⟩
          rcases hm2 p hp with hpa | ⟨htx, hmem⟩
          · rcases mem_btreeInsert p record.tx record acc hpa with hpr | hpa2
            · subst hpr
              exact Or.inr ⟨rfl, List.mem_cons.mpr (Or.inl rfl)⟩
            · exact Or.inl hpa2
          · exact Or.inr ⟨htx, List.mem_cons.mpr (Or.inr hmem)⟩

/-! ### Helper lemmas: a failing account operation leaves the receiver
exactly as it was (the source returns `Err` without touching `self`). -/

theorem withdraw_error_unchanged (acc : Account) (amount : ℤ) (e : AccountError)
    (h : (acc.withdraw amount).2 = Except.error e) : (acc.withdraw amount).1 = acc := by
  by_cases hle : amount ≤ acc.total
  · simp [Account.withdraw, hle] at h
  · simp [Account.withdraw, hle]

theorem dispute_error_unchanged (acc : Account) (t : Nat) (e : AccountError)
    (h : (acc.dispute t).2 = Except.error e) : (acc.dispute t).1 = acc := by
  cases hg : btreeGet t acc.transactions with
  | some orig => simp [Account.dispute, hg] at h
  | none => simp [Account.dispute, hg]

theorem resolve_error_unchanged (acc : Account) (t : Nat) (e : AccountError)
    (h : (acc.resolve t).2 = Except.error e) : (acc.resolve t).1 = acc := by
  cases hg : btreeGet t acc.transactions with
  | some orig =>
      by_cases hd : orig.disputed
      · simp [Account.resolve, hg, hd] at h
      · simp [Account.resolve, hg, hd]
  | none => simp [Account.resolve, hg]

theorem charge_back_error_unchanged (acc : Account) (t : Nat) (e : AccountError)
    (h : (acc.charge_back t).2 = Except.error e) : (acc.charge_back t).1 = acc := by
  cases hg : btreeGet t acc.transactions with
  | some orig =>
      by_cases hd : orig.disputed
      · simp [Account.charge_back, hg, hd] at h
      · simp [Account.charge_back, hg, hd]
  | none => simp [Account.charge_back, hg]

theorem process_transaction_error_unchanged (acc : Account) (tx : Transaction)
    (e : AccountError) (h : (acc.process_transaction tx).2 = Except.error e) :
    (acc.process_transaction tx).1 = acc := by
  by_cases hl : acc.locked
  · simp [Account.process_transaction, hl]
  · cases htype : tx.type with
    | Deposit => simp [Account.process_transaction, hl, htype] at h
    | Withdrawal =>
        rcases hw : acc.withdraw tx.amount with ⟨a, st⟩
        cases st with
        | ok u => simp [Account.process_transaction, hl, htype, hw] at h
        | error e2 =>
            have ha : a = acc := by
              have h2 := withdraw_error_unchanged acc tx.amount e2 (by rw [hw])
              rw [hw] at h2
              exact h2
            simp [Account.process_transaction, hl, htype, hw, ha]
    | Dispute =>
        simp only [Account.process_transaction, hl, htype, if_false, Bool.false_eq_true] at h ⊢
        exact dispute_error_unchanged acc tx.tx e h
    | Resolve =>
        simp only [Account.process_transaction, hl, htype, if_false, Bool.false_eq_true] at h ⊢
        exact resolve_error_unchanged acc tx.tx e h
    | ChargeBack =>
        simp only [Account.process_transaction, hl, htype, if_false, Bool.false_eq_true] at h ⊢
        exact charge_back_error_unchanged acc tx.tx e h
    | Unknown raw => simp [Account.process_transaction, hl, htype]

/-! ### Claims -/

/-- C1: the claim states `total == available + held` after every successful
operation.  The code refutes it: the scenario deposit(5); dispute(1);
charge_back(1), each step successful, ends with `total = 10` while
`available + held = 0`, because `Account::charge_back` adds the disputed
amount to `total` instead of subtracting it. -/
theorem C1_chargeback_breaks_invariant :
    chargebackScenario.2 = Except.ok () ∧
    chargebackScenario.1.available = 0 ∧
    chargebackScenario.1.held = 0 ∧
    chargebackScenario.1.total = 10 ∧
    chargebackScenario.1.total ≠ chargebackScenario.1.available + chargebackScenario.1.held := by
  decide

/-- C2: the claim states a successful `charge_back` decreases both `total`
and `held` by the disputed amount.  Evaluating `Account::charge_back` on an
account holding a disputed 5-unit deposit (`total = 5`): `held` drops to 0
but `total` rises to 10 — the code adds the amount to `total`.  The
absent-id case does return `UnknownTransaction` with the account intact. -/
theorem C2_charge_back_adds_to_total :
    ({ client := 1, available := 0, held := 5, total := 5, locked := false,
       transactions := [(1, ⟨TransactionType.Deposit, 1, 1, 5, true⟩)] } : Account).charge_back 1 =
      ({ client := 1, available := 0, held := 0, total := 10, locked := true,
         transactions := [(1, ⟨TransactionType.Deposit, 1, 1, 5, false⟩)] }, Except.ok ()) ∧
    (newAccount 1).charge_back 9 = (newAccount 1, Except.error AccountError.UnknownTransaction) := by
  decide

/-- C3: the claim states that once `locked` is true every subsequent
transaction fails with `AccountLocked` and leaves balances unchanged.
`Account::process_transaction` does implement that check (first conjunct),
but the engine loop never consults `locked`: after its ChargeBack arm locks
the account, a later Deposit record still changes the balances (second
conjunct — final account has `available = total = 5` with `locked = true`
and no failed record). -/
theorem C3_engine_ignores_lock :
    ({ client := 1, available := 2, held := 3, total := 5, locked := true,
       transactions := [] } : Account).process_transaction
        ⟨TransactionType.Deposit, 1, 7, 4, false⟩ =
      ({ client := 1, available := 2, held := 3, total := 5, locked := true, transactions := [] },
       Except.error AccountError.AccountLocked) ∧
    PaymentEngine.processTransactionsRun
        [Except.ok ⟨TransactionType.ChargeBack, 1, 1, 0, false⟩,
         Except.ok ⟨TransactionType.Deposit, 1, 2, 5, false⟩] =
      Except.ok { accounts := [(1, { client := 1, available := 5, held := 0, total := 5, locked := true })],
                  failed_transactions := [] } := by
  decide

/-- C4 counterexample: two records sharing transaction id 1 arrive in
encounter order deposit(5), deposit(7).  Applying both in encounter order
(the spec-modelled run) yields `available = 12`; the engine yields
`available = 7` because parsing keyed the map by transaction id and the
first record was overwritten — so a record is skipped, refuting "no record
skipped before processing". -/
theorem C4_counterexample :
    PaymentEngine.processTransactionsRun
        [Except.ok ⟨TransactionType.Deposit, 1, 1, 5, false⟩,
         Except.ok ⟨TransactionType.Deposit, 1, 1, 7, false⟩] =
      Except.ok { accounts := [(1, { client := 1, available := 7, held := 0, total := 7, locked := false })],
                  failed_transactions := [] } ∧
    PaymentEngine.encounterOrderRun
        [(1, ⟨TransactionType.Deposit, 1, 1, 5, false⟩),
         (1, ⟨TransactionType.Deposit, 1, 1, 7, false⟩)] =
      { accounts := [(1, { client := 1, available := 12, held := 0, total := 12, locked := false })],
        failed_transactions := [] } := by
  decide

/-- C4 (amended): the engine does not process records in encounter order;
it folds the parsed map, whose keys are strictly increasing transaction
ids, keeping at most one record per id, each entry keyed by its own `tx`
field and drawn from the input rows.  `failed_transactions` is therefore
appended in that ascending-id processing order. -/
theorem C4_engine_processes_sorted_map (rows : List (Except String Transaction))
    (m : List (Nat × Transaction)) (h : PaymentEngine.parseTransactions rows = Except.ok m) :
    PaymentEngine.processTransactionsRun rows = Except.ok (PaymentEngine.processParsed m) ∧
    SortedKeys m ∧
    ∀ p ∈ m, p.2.tx = p.1 ∧ Except.ok p.2 ∈ rows := by
  obtain ⟨h1, h2⟩ := parseTransactionsAux_sorted_mem rows [] m h (by simp [SortedKeys])
  refine ⟨?_, h1, fun p hp => ?_⟩
  · simp [PaymentEngine.processTransactionsRun, h]
  · rcases h2 p hp with hpa | hok
    · simp at hpa
    · exact hok

/-- C4 witness: a deposit with tx id 2 encountered before a withdrawal
with tx id 1 is processed after it. -/
theorem C4_engine_processes_sorted_map_witness :
    PaymentEngine.processTransactionsRun
        [Except.ok ⟨TransactionType.Deposit, 1, 2, 5, false⟩,
         Except.ok ⟨TransactionType.Withdrawal, 1, 1, 5, false⟩] =
      Except.ok (PaymentEngine.processParsed
        [(1, ⟨TransactionType.Withdrawal, 1, 1, 5, false⟩),
         (2, ⟨TransactionType.Deposit, 1, 2, 5, false⟩)]) ∧
    SortedKeys
        [(1, (⟨TransactionType.Withdrawal, 1, 1, 5, false⟩ : Transaction)),
         (2, ⟨TransactionType.Deposit, 1, 2, 5, false⟩)] ∧
    ∀ p ∈ [(1, (⟨TransactionType.Withdrawal, 1, 1, 5, false⟩ : Transaction)),
           (2, (⟨TransactionType.Deposit, 1, 2, 5, false⟩ : Transaction))],
      p.2.tx = p.1 ∧ Except.ok p.2 ∈
        ([Except.ok ⟨TransactionType.Deposit, 1, 2, 5, false⟩,
          Except.ok ⟨TransactionType.Withdrawal, 1, 1, 5, false⟩] :
           List (Except String Transaction)) :=
  C4_engine_processes_sorted_map _ _ rfl

/-- C5 counterexample: a run whose second row fails to parse returns the
parse error for the whole run — the failing record is not appended to
`failed_transactions` and processing does not continue. -/
theorem C5_counterexample :
    PaymentEngine.processTransactionsRun
        [Except.ok ⟨TransactionType.Deposit, 1, 1, 5, false⟩, Except.error ("bad row")] =
      Except.error ("bad row") := by
  decide

/-- C5 (amended): a record that fails to parse aborts the entire run:
`parse_transactions` propagates the first parse error through `?`, so
`process_transactions` returns it before any record reaches any account,
and nothing is appended to the failed list. -/
theorem C5_parse_error_aborts (good : List (Except String Transaction)) (e : String)
    (rest : List (Except String Transaction))
    (h : ∀ r ∈ good, ∃ t, r = Except.ok t) :
    PaymentEngine.processTransactionsRun (good ++ Except.error e :: rest) = Except.error e := by
  have key : ∀ (g : List (Except String Transaction)), (∀ r ∈ g, ∃ t, r = Except.ok t) →
      ∀ acc, PaymentEngine.parseTransactionsAux acc (g ++ Except.error e :: rest) =
        Except.error e := by
    intro g
    induction g with
    | nil => intro _ acc; simp [PaymentEngine.parseTransactionsAux]
    | cons r g2 ih =>
        intro hg acc
        obtain ⟨t, ht⟩ := hg r (List.mem_cons.mpr (Or.inl rfl))
        subst ht
        simp only [List.cons_append, PaymentEngine.parseTransactionsAux]
        exact ih (fun r2 hr2 => hg r2 (List.mem_cons.mpr (Or.inr hr2))) _
  have hp := key good h []
  simp [PaymentEngine.processTransactionsRun, PaymentEngine.parseTransactions, hp]

/-- C5 witness: a parse failure in the middle of otherwise good rows
aborts the run with that error. -/
theorem C5_parse_error_aborts_witness :
    PaymentEngine.processTransactionsRun
        [Except.ok ⟨TransactionType.Deposit, 1, 1, 5, false⟩, Except.error ("malformed"),
         Except.ok ⟨TransactionType.Deposit, 1, 2, 3, false⟩] = Except.error ("malformed") := by
  exact C5_parse_error_aborts [Except.ok ⟨TransactionType.Deposit, 1, 1, 5, false⟩]
    ("malformed") [Except.ok ⟨TransactionType.Deposit, 1, 2, 3, false⟩]
    (by intro r hr; simp at hr; exact ⟨_, hr⟩)

/-- C6: `Account::dispute` on an absent id fails with `UnknownTransaction`
leaving the account exactly unchanged; on a present id it moves the stored
amount from `available` to `held`, marks the stored transaction
`disputed = true`, and leaves `total` unchanged. -/
theorem C6_dispute_spec (acc : Account) (t : Nat) :
    (btreeGet t acc.transactions = none →
      acc.dispute t = (acc, Except.error AccountError.UnknownTransaction)) ∧
    ∀ orig, btreeGet t acc.transactions = some orig →
      acc.dispute t =
        ({ acc with
            available := acc.available - orig.amount,
            held := acc.held + orig.amount,
            transactions := btreeInsert t ({ orig with disputed := true }) acc.transactions },
         Except.ok ()) ∧
      (acc.dispute t).1.total = acc.total := by
  constructor
  · intro h
    simp [Account.dispute, h]
  · intro orig h
    constructor
    · simp [Account.dispute, h]
    · simp [Account.dispute, h]

/-- C6 witness: disputing the stored 5-unit deposit with id 1 on an
account with `available = 5` moves the 5 to `held`, flags the stored
transaction, and keeps `total = 5`; disputing the absent id 9 fails with
`UnknownTransaction` and the account untouched. -/
theorem C6_dispute_spec_witness :
    ({ client := 1, available := 5, held := 0, total := 5, locked := false,
       transactions := [(1, ⟨TransactionType.Deposit, 1, 1, 5, false⟩)] } : Account).dispute 1 =
      ({ client := 1, available := 0, held := 5, total := 5, locked := false,
         transactions := [(1, ⟨TransactionType.Deposit, 1, 1, 5, true⟩)] }, Except.ok ()) ∧
    ({ client := 1, available := 5, held := 0, total := 5, locked := false,
       transactions := [(1, ⟨TransactionType.Deposit, 1, 1, 5, false⟩)] } : Account).dispute 9 =
      ({ client := 1, available := 5, held := 0, total := 5, locked := false,
         transactions := [(1, ⟨TransactionType.Deposit, 1, 1, 5, false⟩)] },
       Except.error AccountError.UnknownTransaction) := by
  refine ⟨?_, ?_⟩
  · have h := (C6_dispute_spec
      { client := 1, available := 5, held := 0, total := 5, locked := false,
        transactions := [(1, ⟨TransactionType.Deposit, 1, 1, 5, false⟩)] } 1).2
      ⟨TransactionType.Deposit, 1, 1, 5, false⟩ rfl
    exact h.1.trans (by decide)
  · exact (C6_dispute_spec
      { client := 1, available := 5, held := 0, total := 5, locked := false,
        transactions := [(1, ⟨TransactionType.Deposit, 1, 1, 5, false⟩)] } 9).1 rfl

/-- C7 counterexample: neither a deposit nor a withdrawal with amount -5
is rejected.  The deposit is applied (the account ends with
`available = total = -5`); the withdrawal of -5 on a fresh account passes
the ordinary `amount <= total` check (-5 <= 0) and is applied, adding 5
units (`available = total = 5`).  Both runs record no failure. -/
theorem C7_counterexample :
    PaymentEngine.processTransactionsRun
        [Except.ok ⟨TransactionType.Deposit, 1, 1, -5, false⟩] =
      Except.ok { accounts := [(1, { client := 1, available := -5, held := 0, total := -5, locked := false })],
                  failed_transactions := [] } ∧
    PaymentEngine.processTransactionsRun
        [Except.ok ⟨TransactionType.Withdrawal, 1, 1, -5, false⟩] =
      Except.ok { accounts := [(1, { client := 1, available := 5, held := 0, total := 5, locked := false })],
                  failed_transactions := [] } := by
  decide

/-- C7 (amended): the engine performs no minimum-amount validation and no
`InvalidAmount` error exists: Deposit and Withdrawal records with
non-positive amounts are dispatched like any other record.  A non-positive
deposit is applied, changing `available` and `total` by that amount, and
is never appended to the failed list; a non-positive withdrawal is subject
only to the ordinary `amount <= total` check — when that passes the
withdrawal is applied (subtracting the negative amount, i.e. adding
funds), and only when `total < amount` is the record pushed to the failed
list. -/
theorem C7_no_amount_validation (txs : List (Nat × Transaction))
    (st : PaymentEngine.EngineState) (k : Nat) (tx : Transaction)
    (_hamt : tx.amount ≤ 0) :
    (tx.type = TransactionType.Deposit →
      PaymentEngine.processRecord txs st (k, tx) =
        { st with accounts := (btreeInsert tx.client
            ({ PaymentEngine.entryAccount st tx.client with
                available := (PaymentEngine.entryAccount st tx.client).available + tx.amount,
                total := (PaymentEngine.entryAccount st tx.client).total + tx.amount }) st.accounts) }) ∧
    (tx.type = TransactionType.Withdrawal →
      tx.amount ≤ (PaymentEngine.entryAccount st tx.client).total →
      PaymentEngine.processRecord txs st (k, tx) =
        { st with accounts := (btreeInsert tx.client
            ({ PaymentEngine.entryAccount st tx.client with
                available := (PaymentEngine.entryAccount st tx.client).available - tx.amount,
                total := (PaymentEngine.entryAccount st tx.client).total - tx.amount }) st.accounts) }) ∧
    (tx.type = TransactionType.Withdrawal →
      ¬ tx.amount ≤ (PaymentEngine.entryAccount st tx.client).total →
      PaymentEngine.processRecord txs st (k, tx) =
        { accounts := btreeInsert tx.client (PaymentEngine.entryAccount st tx.client) st.accounts,
          failed_transactions := st.failed_transactions ++ [tx] }) := by
  refine ⟨fun htype => ?_, fun htype hle => ?_, fun htype hle => ?_⟩
  · simp [PaymentEngine.processRecord, htype]
  · simp [PaymentEngine.processRecord, htype, hle]
  · simp [PaymentEngine.processRecord, htype, hle]

/-- C7 witness: a deposit of -5 for a fresh client is applied, and a
withdrawal of -5 for a fresh client passes the total check and adds 5
units; neither is recorded as failed. -/
theorem C7_no_amount_validation_witness :
    PaymentEngine.processRecord [] { accounts := [], failed_transactions := [] }
        (1, ⟨TransactionType.Deposit, 1, 1, -5, false⟩) =
      { accounts := [(1, { client := 1, available := -5, held := 0, total := -5, locked := false })],
        failed_transactions := [] } ∧
    PaymentEngine.processRecord [] { accounts := [], failed_transactions := [] }
        (1, ⟨TransactionType.Withdrawal, 1, 1, -5, false⟩) =
      { accounts := [(1, { client := 1, available := 5, held := 0, total := 5, locked := false })],
        failed_transactions := [] } := by
  have hd := (C7_no_amount_validation [] { accounts := [], failed_transactions := [] } 1
      ⟨TransactionType.Deposit, 1, 1, -5, false⟩ (by norm_num)).1 rfl
  have hw := (C7_no_amount_validation [] { accounts := [], failed_transactions := [] } 1
      ⟨TransactionType.Withdrawal, 1, 1, -5, false⟩ (by norm_num)).2.1 rfl (by decide)
  exact ⟨hd.trans (by decide), hw.trans (by decide)⟩

/-- C8: every fallible account operation that returns an error leaves the
receiver exactly as it was before the call: no partial mutation is
observable on failure, for `withdraw`, `dispute`, `resolve`,
`charge_back` and `process_transaction`. -/
theorem C8_failure_leaves_account_unchanged :
    (∀ (acc : Account) (amount : ℤ) (e : AccountError),
        (acc.withdraw amount).2 = Except.error e → (acc.withdraw amount).1 = acc) ∧
    (∀ (acc : Account) (t : Nat) (e : AccountError),
        (acc.dispute t).2 = Except.error e → (acc.dispute t).1 = acc) ∧
    (∀ (acc : Account) (t : Nat) (e : AccountError),
        (acc.resolve t).2 = Except.error e → (acc.resolve t).1 = acc) ∧
    (∀ (acc : Account) (t : Nat) (e : AccountError),
        (acc.charge_back t).2 = Except.error e → (acc.charge_back t).1 = acc) ∧
    (∀ (acc : Account) (tx : Transaction) (e : AccountError),
        (acc.process_transaction tx).2 = Except.error e → (acc.process_transaction tx).1 = acc) :=
  ⟨withdraw_error_unchanged, dispute_error_unchanged, resolve_error_unchanged,
   charge_back_error_unchanged, process_transaction_error_unchanged⟩

/-- C8 witness: a deposit on a locked account and an insufficient-funds
withdrawal both fail and leave the account exactly as it was. -/
theorem C8_failure_leaves_account_unchanged_witness :
    (({ client := 1, available := 2, held := 3, total := 5, locked := true,
        transactions := [] } : Account).process_transaction
        ⟨TransactionType.Deposit, 1, 7, 4, false⟩).1 =
      { client := 1, available := 2, held := 3, total := 5, locked := true, transactions := [] } ∧
    ((newAccount 1).withdraw 9).1 = newAccount 1 := by
  refine ⟨?_, ?_⟩
  · exact C8_failure_leaves_account_unchanged.2.2.2.2 _
      ⟨TransactionType.Deposit, 1, 7, 4, false⟩ AccountError.AccountLocked (by decide)
  · exact C8_failure_leaves_account_unchanged.1 _ 9 AccountError.InsufficientFunds (by decide)

/-- C9: for any amount `a > 0`, depositing `a` then withdrawing `a` on a
fresh all-zero unlocked account succeeds at both steps and returns the
account to `available = 0` and `total = 0`. -/
theorem C9_deposit_then_withdraw (a : ℤ) (_h : 0 < a) :
    ((newAccount 1).process_transaction ⟨TransactionType.Deposit, 1, 1, a, false⟩).2 =
      Except.ok () ∧
    (((newAccount 1).process_transaction ⟨TransactionType.Deposit, 1, 1, a, false⟩).1.process_transaction
        ⟨TransactionType.Withdrawal, 1, 2, a, false⟩).2 = Except.ok () ∧
    (((newAccount 1).process_transaction ⟨TransactionType.Deposit, 1, 1, a, false⟩).1.process_transaction
        ⟨TransactionType.Withdrawal, 1, 2, a, false⟩).1.available = 0 ∧
    (((newAccount 1).process_transaction ⟨TransactionType.Deposit, 1, 1, a, false⟩).1.process_transaction
        ⟨TransactionType.Withdrawal, 1, 2, a, false⟩).1.total = 0 := by
  have hle : a ≤ 0 + a := by linarith
  simp [Account.process_transaction, Account.deposit, Account.withdraw, newAccount, hle]

/-- C9 witness: the round trip at `a = 3`. -/
theorem C9_deposit_then_withdraw_witness :
    ((newAccount 1).process_transaction ⟨TransactionType.Deposit, 1, 1, 3, false⟩).2 =
      Except.ok () ∧
    (((newAccount 1).process_transaction ⟨TransactionType.Deposit, 1, 1, 3, false⟩).1.process_transaction
        ⟨TransactionType.Withdrawal, 1, 2, 3, false⟩).2 = Except.ok () ∧
    (((newAccount 1).process_transaction ⟨TransactionType.Deposit, 1, 1, 3, false⟩).1.process_transaction
        ⟨TransactionType.Withdrawal, 1, 2, 3, false⟩).1.available = 0 ∧
    (((newAccount 1).process_transaction ⟨TransactionType.Deposit, 1, 1, 3, false⟩).1.process_transaction
        ⟨TransactionType.Withdrawal, 1, 2, 3, false⟩).1.total = 0 :=
  C9_deposit_then_withdraw 3 (by norm_num)

/-- C10: in the engine loop, a Dispute/Resolve/ChargeBack record looks up
its own id in the very map being iterated, so (keys being strictly
increasing and the entry being a member) the lookup returns the triggering
record itself; each of the three arms takes its `some` branch — never
appending to `failed_transactions` — and the amount moved is the record's
own `amount` field. -/
theorem C10_reference_lookup_finds_self (txs : List (Nat × Transaction))
    (st : PaymentEngine.EngineState) (k : Nat) (tx : Transaction)
    (hs : SortedKeys txs) (hm : (k, tx) ∈ txs) :
    btreeGet k txs = some tx ∧
    (tx.type = TransactionType.Dispute →
      PaymentEngine.processRecord txs st (k, tx) =
        { st with accounts := (btreeInsert tx.client
            ({ PaymentEngine.entryAccount st tx.client with
                available := (PaymentEngine.entryAccount st tx.client).available - tx.amount,
                held := (PaymentEngine.entryAccount st tx.client).held + tx.amount }) st.accounts) }) ∧
    (tx.type = TransactionType.Resolve →
      PaymentEngine.processRecord txs st (k, tx) =
        { st with accounts := (btreeInsert tx.client
            ({ PaymentEngine.entryAccount st tx.client with
                available := (PaymentEngine.entryAccount st tx.client).available + tx.amount,
                held := (PaymentEngine.entryAccount st tx.client).held - tx.amount }) st.accounts) }) ∧
    (tx.type = TransactionType.ChargeBack →
      PaymentEngine.processRecord txs st (k, tx) =
        { st with accounts := (btreeInsert tx.client
            ({ PaymentEngine.entryAccount st tx.client with
                total := (PaymentEngine.entryAccount st tx.client).total + tx.amount,
                held := (PaymentEngine.entryAccount st tx.client).held - tx.amount,
                locked := true }) st.accounts) }) := by
  have hget := btreeGet_of_sorted_mem k tx txs hs hm
  refine ⟨hget, ?_, ?_, ?_⟩ <;> intro ht <;>
    simp [PaymentEngine.processRecord, ht, hget]

/-- C10 witness: a lone dispute record with id 1 and amount 4 finds itself
and moves its own 4 units from `available` to `held` of its client's
fresh account, recording no failure. -/
theorem C10_reference_lookup_finds_self_witness :
    btreeGet 1 [(1, (⟨TransactionType.Dispute, 7, 1, 4, false⟩ : Transaction))] =
      some ⟨TransactionType.Dispute, 7, 1, 4, false⟩ ∧
    PaymentEngine.processRecord [(1, ⟨TransactionType.Dispute, 7, 1, 4, false⟩)]
        { accounts := [], failed_transactions := [] }
        (1, ⟨TransactionType.Dispute, 7, 1, 4, false⟩) =
      { accounts := [(7, { client := 7, available := -4, held := 4, total := 0, locked := false })],
        failed_transactions := [] } := by
  have h := C10_reference_lookup_finds_self [(1, ⟨TransactionType.Dispute, 7, 1, 4, false⟩)]
      { accounts := [], failed_transactions := [] } 1 ⟨TransactionType.Dispute, 7, 1, 4, false⟩
      (by simp [SortedKeys]) (by simp)
  exact ⟨h.1, (h.2.1 rfl).trans (by decide)⟩
